import Mathlib

/-!
Verification of the SpendingTracker analytics core.

This file shallowly embeds the analytics pipeline of the repository:
`analyze_transactions` and `analyze_category` from
`src/data-service/app/api/analyze.py` and `calculate_forecast` from
`src/data-service/app/api/forecast.py`.

Modelling conventions:
- Python floats are modelled as exact rationals.  Python `round(x, n)`
  (round half to even) is modelled exactly on rationals.
- A parsed `datetime` is modelled at day granularity as a natural number
  of days since 1970-01-01.  A transaction carries `date : Option Nat`:
  `some d` is the result of a successful ISO-8601 parse of the date
  string, `none` records that `datetime.fromisoformat` raised, in which
  case the code substitutes the current wall clock time `now`
  (`datetime.now()` is passed in explicitly as the `now : Nat` anchor).
- A pandas `Period` month bucket `%Y-%m` is modelled as the natural
  number `year * 12 + (month - 1)`; this is order isomorphic to the
  rendered label for four digit years.
- `pandas.DataFrame.groupby` sorts the group keys; the embedding
  materialises the sorted distinct keys and aggregates per key.
- The sample standard deviation used by the forecaster only enters the
  output through `1.96 * std`; the square root has no exact rational
  value, so `calculate_forecast` takes the square root routine as an
  explicit oracle `sq : Rat -> Rat` applied to the sample variance.
  The outlier detector of `analyze_transactions` only compares against
  `mean + 2 * std`; that comparison is embedded by its exact
  square free equivalent (`outlierCond` below) and proved equivalent
  to the real-number inequality with `Real.sqrt` in claim 4.
-/

/-- Civil calendar from a day count (days since 1970-01-01), following the
standard Gregorian conversion; returns (year, month, day-of-month). -/
def civilFromDays (z0 : Nat) : Nat × Nat × Nat :=
  let z := z0 + 719468
  let era := z / 146097
  let doe := z % 146097
  let yoe := (doe - doe / 1460 + doe / 36524 - doe / 146096) / 365
  let y := yoe + era * 400
  let doy := doe - (365 * yoe + yoe / 4 - yoe / 100)
  let mp := (5 * doy + 2) / 153
  let d := doy - (153 * mp + 2) / 5 + 1
  let m := if mp < 10 then mp + 3 else mp - 9
  (if m ≤ 2 then y + 1 else y, m, d)

/-- Inverse of `civilFromDays`, used to build concrete test dates. -/
def daysFromCivil (y0 m d : Nat) : Nat :=
  let y := if m ≤ 2 then y0 - 1 else y0
  let era := y / 400
  let yoe := y % 400
  let doy := (153 * (if 2 < m then m - 3 else m + 9) + 2) / 5 + d - 1
  let doe := yoe * 365 + yoe / 4 - yoe / 100 + doy
  era * 146097 + doe - 719468

/-- The `%Y-%m` month bucket of a day count, encoded as `year * 12 + (month - 1)`. -/
def ymOfDay (z : Nat) : Nat :=
  let c := civilFromDays z
  c.1 * 12 + (c.2.1 - 1)

/-- Python `round` to an integer: round half to even (used by `round(x, n)`
and by `format` with a fixed number of decimals). -/
def pyRound (q : ℚ) : ℤ :=
  let f := ⌊q⌋
  let r := q - f
  if r < 1/2 then f
  else if 1/2 < r then f + 1
  else if f % 2 = 0 then f else f + 1

/-- Python `round(x, 2)` on rationals. -/
def round2 (q : ℚ) : ℚ := (pyRound (q * 100) : ℚ) / 100

/-- Python `round(x, 1)` on rationals (also `f"{x:.1f}"`). -/
def round1 (q : ℚ) : ℚ := (pyRound (q * 10) : ℚ) / 10

/-- Stable insertion: place `x` before the first element `y` with `le x y`.
With `le x y := (key y <= key x)` this is Python `list.sort(key=..., reverse=True)`,
with `le x y := (key x <= key y)` it is an ascending stable sort. -/
def insertBy (le : α → α → Bool) (x : α) : List α → List α
  | [] => [x]
  | y :: ys => if le x y then x :: y :: ys else y :: insertBy le x ys

/-- Stable insertion sort (same stability contract as Python `list.sort`). -/
def sortBy (le : α → α → Bool) : List α → List α
  | [] => []
  | x :: xs => insertBy le x (sortBy le xs)

/-- Raw transaction as received by the endpoints (`Transaction` pydantic model):
`id`, `description`, `amount` (float), `type` ("INCOME" or "EXPENSE"),
optional `category`, and the date string, modelled by its parse result
(`none` when `datetime.fromisoformat` fails). -/
structure Transaction where
  id : Int
  description : String
  amount : ℚ
  type : String
  category : Option String
  date : Option Nat
deriving DecidableEq, Repr

/-- One row of the normalized DataFrame built by `analyze_transactions` and
`calculate_forecast`: date parsed (falling back to `now`), category resolved
(`t.category or "Uncategorized"`), month bucket derived. -/
structure Row where
  id : Int
  description : String
  amount : ℚ
  type : String
  category : String
  day : Nat
  month : Nat
deriving DecidableEq, Repr

/-- Python `t.category or "Uncategorized"`: `None` and the empty string are
falsy and are replaced. -/
def resolveCategory (c : Option String) : String :=
  match c with
  | none => "Uncategorized"
  | some s => if s = "" then "Uncategorized" else s

/-- Normalize one raw transaction (the body of the `for t in transactions`
loop plus the derived `month` column). -/
def toRow (now : Nat) (t : Transaction) : Row :=
  { id := t.id, description := t.description, amount := t.amount,
    type := t.type, category := resolveCategory t.category,
    day := t.date.getD now, month := ymOfDay (t.date.getD now) }

/-- The normalized DataFrame. -/
def rowsOf (now : Nat) (txs : List Transaction) : List Row :=
  txs.map (toRow now)

/-- Sum of the `amount` column. -/
def sumAmounts (l : List Row) : ℚ := (l.map (fun r => r.amount)).sum

/-- The EXPENSE-only rows (`df[df['type'] == 'EXPENSE']`). -/
def expensesOf (now : Nat) (txs : List Transaction) : List Row :=
  (rowsOf now txs).filter (fun r => r.type == "EXPENSE")

/-- The INCOME-only rows. -/
def incomesOf (now : Nat) (txs : List Transaction) : List Row :=
  (rowsOf now txs).filter (fun r => r.type == "INCOME")

/-- Distinct category keys in the order produced by `groupby('category')`:
pandas sorts group keys, here lexicographically on the label. -/
def catKeys (l : List Row) : List String :=
  sortBy (fun a b => decide (a ≤ b)) (l.map (fun r => r.category)).dedup

/-- Total amount of one category group. -/
def catTotal (l : List Row) (c : String) : ℚ :=
  sumAmounts (l.filter (fun r => r.category == c))

/-- Size of one category group. -/
def catCount (l : List Row) (c : String) : Nat :=
  (l.filter (fun r => r.category == c)).length

/-- `category_stats['total_spent'].sum()`: the total expense used for the
percentage column (sum of the per-group sums). -/
def groupTotals (l : List Row) : ℚ := ((catKeys l).map (catTotal l)).sum

/-- One entry of the category breakdown (`CategoryBreakdown` model). -/
structure CategoryBreakdown where
  category : String
  total_spent : ℚ
  transaction_count : Nat
  average_transaction : ℚ
  percentage_of_total : ℚ
  trend : String
deriving DecidableEq, Repr

/-- The category pass of `analyze_transactions`: group the expense rows by
category (keys sorted by pandas), build the per-category dictionaries with
rounded fields, then `category_breakdown.sort(key=lambda x: x['total_spent'],
reverse=True)` (a stable descending sort on the rounded totals). -/
def mkBreakdown (es : List Row) : List CategoryBreakdown :=
  let T := groupTotals es
  let rows := (catKeys es).map (fun c =>
    { category := c,
      total_spent := round2 (catTotal es c),
      transaction_count := catCount es c,
      average_transaction := round2 (catTotal es c / (catCount es c : ℚ)),
      percentage_of_total := round2 (if 0 < T then catTotal es c / T * 100 else 0),
      trend := "stable" : CategoryBreakdown })
  sortBy (fun a b => decide (b.total_spent ≤ a.total_spent)) rows

/-- One entry of the monthly breakdown (`MonthlyBreakdown` model); the month
bucket is the `%Y-%m` label encoded as `year * 12 + (month - 1)`. -/
structure MonthlyBreakdown where
  month : Nat
  total_spending : ℚ
  total_income : ℚ
  net_savings : ℚ
  top_category : String
deriving DecidableEq, Repr

/-- Distinct month keys of a row list in ascending order (pandas sorts the
group index). -/
def monthKeys (l : List Row) : List Nat :=
  sortBy (fun a b => decide (a ≤ b)) (l.map (fun r => r.month)).dedup

/-- Amount of a given type in a given month (`unstack(fill_value=0)` yields
the per-month sums, with 0 when the month has no row of that type; a missing
type column also reads as 0, which coincides with the empty sum). -/
def monthTypeTotal (l : List Row) (ty : String) (m : Nat) : ℚ :=
  sumAmounts ((l.filter (fun r => r.type == ty)).filter (fun r => r.month == m))

/-- Dominant expense category of a month: `groupby('category')['amount']
.sum().idxmax()` returns the first key attaining the maximum, in sorted key
order; months without expenses report "N/A". -/
def topCatOfMonth (es : List Row) (m : Nat) : String :=
  let mes := es.filter (fun r => r.month == m)
  match catKeys mes with
  | [] => "N/A"
  | k :: ks => ks.foldl (fun best c =>
      if catTotal mes best < catTotal mes c then c else best) k

/-- The monthly pass of `analyze_transactions`. -/
def mkMonthly (rows es : List Row) : List MonthlyBreakdown :=
  (monthKeys rows).map (fun m =>
    { month := m,
      total_spending := round2 (monthTypeTotal rows "EXPENSE" m),
      total_income := round2 (monthTypeTotal rows "INCOME" m),
      net_savings := round2 (monthTypeTotal rows "INCOME" m - monthTypeTotal rows "EXPENSE" m),
      top_category := topCatOfMonth es m })

/-- Mean of the expense amounts (`expenses_df['amount'].mean()`). -/
def exMean (es : List Row) : ℚ := sumAmounts es / (es.length : ℚ)

/-- Sample variance of the expense amounts: the square of
`expenses_df['amount'].std()` (pandas uses ddof = 1). -/
def exVar (es : List Row) : ℚ :=
  ((es.map (fun r => (r.amount - exMean es) ^ 2)).sum) / ((es.length : ℚ) - 1)

/-- The outlier test `row['amount'] > mean + 2 * std`, written without the
square root: for `std = sqrt(var) >= 0` the comparison is equivalent to
`mean < amount` together with `(amount - mean)^2 > 4 * var` (proved against
the `Real.sqrt` form in the claim 4 theorem). -/
def outlierCond (es : List Row) (r : Row) : Prop :=
  exMean es < r.amount ∧ 4 * exVar es < (r.amount - exMean es) ^ 2

instance (es : List Row) (r : Row) : Decidable (outlierCond es r) := by
  unfold outlierCond; infer_instance

/-- One reported unusual transaction; `ratio` is the figure `N` in the reason
string "Amount is Nx your average expense". -/
structure UnusualTransaction where
  id : Int
  description : String
  amount : ℚ
  ratio : ℚ
deriving DecidableEq, Repr

/-- Dictionary built for one outlier row. -/
def mkUnusualEntry (es : List Row) (r : Row) : UnusualTransaction :=
  { id := r.id, description := r.description, amount := round2 r.amount,
    ratio := round1 (r.amount / exMean es) }

/-- The outlier detector: active only when there are more than 5 expense
rows. -/
def mkUnusual (es : List Row) : List UnusualTransaction :=
  if 5 < es.length then
    (es.filter (fun r => decide (outlierCond es r))).map (mkUnusualEntry es)
  else []

/-- The insight messages, abstracted by template identity plus the numeric
payloads interpolated into the message text (the `overspending` warning text
interpolates no number). -/
inductive Insight where
  | addTransactions
  | topCategory (category : String) (pct : ℚ)
  | overspending
  | savingsLow (rate : ℚ)
  | savingsGood (rate : ℚ)
  | spendingIncreased
  | spendingDecreased
  | unusualCount (n : Nat)
deriving DecidableEq, Repr

/-- The numeric savings-rate figure interpolated into an insight message, when
the message template contains one (`f"...{savings_rate:.1f}%..."`): the
`savingsLow` and `savingsGood` templates format the rate to one decimal, the
`overspending` warning template contains no number. -/
def insightRate : Insight → Option ℚ
  | .savingsLow r => some r
  | .savingsGood r => some r
  | _ => none

/-- Whether an insight is one of the three savings-rate messages. -/
def isSavingsInsight : Insight → Bool
  | .overspending => true
  | .savingsLow _ => true
  | .savingsGood _ => true
  | _ => false

/-- Rule 2 of the insight synthesizer (`if total_income > 0: ...`). -/
def savingsInsights (inc net : ℚ) : List Insight :=
  if 0 < inc then
    (if net / inc * 100 < 0 then [Insight.overspending]
     else if net / inc * 100 < 20 then [Insight.savingsLow (round1 (net / inc * 100))]
     else [Insight.savingsGood (round1 (net / inc * 100))])
  else []

/-- Rule 3: compare the two most recent months (`monthly_breakdown[-1]` and
`monthly_breakdown[-2]`, on the rounded totals); no message in the middle
band. -/
def monthCompareInsights (monthly : List MonthlyBreakdown) : List Insight :=
  match monthly.reverse with
  | recent :: prev :: _ =>
      if prev.total_spending * (12/10) < recent.total_spending then [Insight.spendingIncreased]
      else if recent.total_spending < prev.total_spending * (8/10) then [Insight.spendingDecreased]
      else []
  | _ => []

/-- Rules 1 to 4 of the insight synthesizer, in evaluation order. -/
def mkInsights (breakdown : List CategoryBreakdown) (monthly : List MonthlyBreakdown)
    (unusual : List UnusualTransaction) (inc net : ℚ) : List Insight :=
  (match breakdown with
   | [] => []
   | top :: _ => [Insight.topCategory top.category (round1 top.percentage_of_total)]) ++
  savingsInsights inc net ++
  monthCompareInsights monthly ++
  (match unusual with
   | [] => []
   | _ => [Insight.unusualCount unusual.length])

/-- Result dictionary of `analyze_transactions`. -/
structure AnalyzeResult where
  total_transactions : Nat
  total_income : ℚ
  total_expenses : ℚ
  net_balance : ℚ
  category_breakdown : List CategoryBreakdown
  monthly_breakdown : List MonthlyBreakdown
  top_spending_categories : List String
  unusual_transactions : List UnusualTransaction
  insights : List Insight
deriving DecidableEq, Repr

/-- `analyze_transactions` from `src/data-service/app/api/analyze.py`. -/
def analyze_transactions (now : Nat) (txs : List Transaction) : AnalyzeResult :=
  if txs = [] then
    { total_transactions := 0, total_income := 0, total_expenses := 0,
      net_balance := 0, category_breakdown := [], monthly_breakdown := [],
      top_spending_categories := [], unusual_transactions := [],
      insights := [Insight.addTransactions] }
  else
    let rows := rowsOf now txs
    let es := expensesOf now txs
    let inc := sumAmounts (incomesOf now txs)
    let exp := sumAmounts es
    let breakdown := mkBreakdown es
    let monthly := mkMonthly rows es
    let unusual := mkUnusual es
    { total_transactions := txs.length,
      total_income := round2 inc,
      total_expenses := round2 exp,
      net_balance := round2 (inc - exp),
      category_breakdown := breakdown,
      monthly_breakdown := monthly,
      top_spending_categories := (breakdown.take 5).map (fun c => c.category),
      unusual_transactions := unusual,
      insights := mkInsights breakdown monthly unusual inc (inc - exp) }

/-- One entry of `recent_transactions` in the category detail response
(description, rounded amount, date). -/
structure RecentTx where
  description : String
  amount : ℚ
  day : Nat
deriving DecidableEq, Repr

/-- Response dictionary of the category detail endpoint. -/
structure CategoryDetail where
  category : String
  total_spent : ℚ
  transaction_count : Nat
  average_transaction : ℚ
  min_transaction : ℚ
  max_transaction : ℚ
  recent_transactions : List RecentTx
deriving DecidableEq, Repr

/-- Boolean error discriminator for the category detail result. -/
def detailIsError : Except String CategoryDetail → Bool
  | .error _ => true
  | .ok _ => false

/-- `analyze_category` from `src/data-service/app/api/analyze.py`: filter on
the raw optional category field (`t.category == category`), raise 404 when
nothing matches, otherwise aggregate and list `df.nlargest(5, 'date')`
(at most five rows, most recent first, ties kept in input order). -/
def analyze_category (now : Nat) (category : String) (txs : List Transaction) :
    Except String CategoryDetail :=
  match txs.filter (fun t => t.category == some category) with
  | [] => Except.error ("No transactions found for category: " ++ category)
  | t :: ts =>
    let amounts := t.amount :: ts.map (fun u => u.amount)
    let total := amounts.sum
    let drows := (t :: ts).map (fun u =>
      { description := u.description, amount := u.amount,
        day := u.date.getD now : RecentTx })
    Except.ok
      { category := category,
        total_spent := round2 total,
        transaction_count := amounts.length,
        average_transaction := round2 (total / (amounts.length : ℚ)),
        min_transaction := round2 ((ts.map (fun u => u.amount)).foldl min t.amount),
        max_transaction := round2 ((ts.map (fun u => u.amount)).foldl max t.amount),
        recent_transactions :=
          ((sortBy (fun a b => decide (b.day ≤ a.day)) drows).take 5).map
            (fun r => { r with amount := round2 r.amount }) }

/-- Mean of a rational list; division by zero makes `meanQ [] = 0`, which is
exactly the guarded `series.mean() if len(series) > 0 else 0` of the code. -/
def meanQ (l : List ℚ) : ℚ := l.sum / (l.length : ℚ)

/-- Sample variance of a rational list (square of `Series.std()`). -/
def varQ (l : List ℚ) : ℚ :=
  ((l.map (fun y => (y - meanQ l) ^ 2)).sum) / ((l.length : ℚ) - 1)

/-- The monthly totals of a row list in ascending month order: the series
`df[df['type'] == ...].groupby('month')['amount'].sum()`. -/
def seriesOf (l : List Row) : List ℚ :=
  (monthKeys l).map (fun m => sumAmounts (l.filter (fun r => r.month == m)))

/-- Slope of the ordinary least squares line fitted by
`LinearRegression().fit(X, y)` with `X = 0, 1, ..., n-1`. -/
def lrSlope (ys : List ℚ) : ℚ :=
  let n : ℚ := (ys.length : ℚ)
  let xbar := (n - 1) / 2
  let ybar := meanQ ys
  let num := (ys.enum.map (fun p => ((p.1 : ℚ) - xbar) * (p.2 - ybar))).sum
  let den := ((List.range ys.length).map (fun i => ((i : ℚ) - xbar) ^ 2)).sum
  num / den

/-- Intercept of the fitted line. -/
def lrIntercept (ys : List ℚ) : ℚ :=
  meanQ ys - lrSlope ys * (((ys.length : ℚ) - 1) / 2)

/-- `model_spending.predict([[x]])`. -/
def lrPredict (ys : List ℚ) (x : ℚ) : ℚ := lrIntercept ys + lrSlope ys * x

/-- One `MonthlyForecast` entry; the month is the `%Y-%m` label of
`now + 30 * (i + 1)` days, encoded as `year * 12 + (month - 1)`. -/
structure MonthlyForecast where
  month : Nat
  predicted_spending : ℚ
  predicted_income : ℚ
  predicted_savings : ℚ
  confidence_lower : ℚ
  confidence_upper : ℚ
deriving DecidableEq, Repr

/-- The advice strings of `calculate_forecast`, by template identity. -/
inductive Advice where
  | addTransactions
  | keepTracking
  | cutDiscretionary
  | increaseSavings
  | reviewRisingSpend
  | praiseDecrease
  | investSurplus
deriving DecidableEq, Repr

/-- Result dictionary of `calculate_forecast`. -/
structure ForecastResult where
  forecasts : List MonthlyForecast
  average_monthly_spending : ℚ
  average_monthly_income : ℚ
  spending_trend : String
  savings_rate : ℚ
  advice : Advice
deriving DecidableEq, Repr

/-- `calculate_forecast` from `src/data-service/app/api/forecast.py`.
`sq` is the square root routine (applied to the sample variance to produce
`monthly_spending.std()`); `now` is `datetime.now()` at day granularity. -/
def calculate_forecast (sq : ℚ → ℚ) (now : Nat) (txs : List Transaction)
    (months : Nat) : ForecastResult :=
  if txs = [] then
    { forecasts := [], average_monthly_spending := 0, average_monthly_income := 0,
      spending_trend := "stable", savings_rate := 0, advice := Advice.addTransactions }
  else
    let ys := seriesOf (expensesOf now txs)
    let yi := seriesOf (incomesOf now txs)
    if ys.length < 2 then
      let avgS := if 0 < ys.length then meanQ ys else 0
      let avgI := if 0 < yi.length then meanQ yi else 0
      { forecasts := (List.range months).map (fun i =>
          { month := ymOfDay (now + 30 * (i + 1)),
            predicted_spending := avgS,
            predicted_income := avgI,
            predicted_savings := avgI - avgS,
            confidence_lower := avgS * (8/10),
            confidence_upper := avgS * (12/10) }),
        average_monthly_spending := avgS,
        average_monthly_income := avgI,
        spending_trend := "stable",
        savings_rate := if 0 < avgI then (avgI - avgS) / avgI * 100 else 0,
        advice := Advice.keepTracking }
    else
      let slope := lrSlope ys
      let trend := if 50 < slope then "increasing"
        else if slope < -50 then "decreasing" else "stable"
      let avgI := if 0 < yi.length then meanQ yi else 0
      let forecasts := (List.range months).map (fun i =>
        let pred := max 0 (lrPredict ys ((ys.length + i : Nat) : ℚ))
        let sd := if 1 < ys.length then sq (varQ ys) else pred * (1/10)
        { month := ymOfDay (now + 30 * (i + 1)),
          predicted_spending := round2 pred,
          predicted_income := round2 avgI,
          predicted_savings := round2 (avgI - pred),
          confidence_lower := round2 (max 0 (pred - (196/100) * sd)),
          confidence_upper := round2 (pred + (196/100) * sd) })
      let avgS := meanQ ys
      let rate := if 0 < avgI then (avgI - avgS) / avgI * 100 else 0
      { forecasts := forecasts,
        average_monthly_spending := round2 avgS,
        average_monthly_income := round2 avgI,
        spending_trend := trend,
        savings_rate := round2 rate,
        advice :=
          if rate < 10 then Advice.cutDiscretionary
          else if rate < 20 then Advice.increaseSavings
          else if trend = "increasing" then Advice.reviewRisingSpend
          else if trend = "decreasing" then Advice.praiseDecrease
          else Advice.investSurplus }

/-- Result of `datetime.fromisoformat(t.date.replace('Z', '+00:00'))` with
the timezone awareness of the parsed value tracked: a trailing "Z" (turned
into "+00:00") or any explicit offset yields a timezone-aware datetime,
a plain timestamp yields a naive one; `day` is the day count as in the main
embedding. -/
structure ParsedDate where
  aware : Bool
  day : Nat
deriving DecidableEq, Repr

/-- A raw transaction with the timezone awareness of its parsed date string
tracked; refinement of `Transaction` used to exhibit the claim 7 failure
mode of the source. -/
structure TransactionTZ where
  id : Int
  description : String
  amount : ℚ
  type : String
  category : Option String
  date : Option ParsedDate
deriving DecidableEq, Repr

/-- Forget the awareness bit, recovering the `Transaction` of the main
embedding (all other fields unchanged). -/
def stripAwareness (t : TransactionTZ) : Transaction :=
  { id := t.id, description := t.description, amount := t.amount,
    type := t.type, category := t.category,
    date := t.date.map (fun d => d.day) }

/-- Whether a list of parsed dates mixes timezone-aware and naive values:
pandas then stores the DataFrame column at object dtype instead of
datetime64, and datetime-only operations on the column raise. -/
def mixesAwareness (l : List ParsedDate) : Bool :=
  l.any (fun d => d.aware) && l.any (fun d => !d.aware)

/-- `analyze_category` with the pandas dtype behavior of the date column
tracked.  The source parses each matching date string; when the parsed
values mix timezone-aware and naive datetimes the DataFrame date column has
object dtype and `df.nlargest(5, 'date')` raises `TypeError`, which
propagates to the caller as an unhandled error distinct from the 404
(`datetime.now()`, the fallback for unparseable strings, is naive).  On a
column of uniform awareness the behavior is exactly `analyze_category`. -/
def analyze_category_tz (now : Nat) (category : String)
    (txs : List TransactionTZ) : Except String CategoryDetail :=
  let matched := txs.filter (fun t => t.category == some category)
  if matched = [] then
    Except.error ("No transactions found for category: " ++ category)
  else if mixesAwareness (matched.map (fun u =>
      u.date.getD { aware := false, day := now })) then
    Except.error "TypeError: nlargest on object dtype date column"
  else
    analyze_category now category (txs.map stripAwareness)

/-- Two matching "Food" transactions whose date strings parse to one
timezone-aware and one naive datetime: the claim 7 failing input. -/
def mixedTxs : List TransactionTZ :=
  [{ id := 1, description := "lunch", amount := 10, type := "EXPENSE",
     category := some "Food", date := some { aware := true, day := 19727 } },
   { id := 2, description := "dinner", amount := 12, type := "EXPENSE",
     category := some "Food", date := some { aware := false, day := 19728 } }]

/-- Field-wise equality of two raw transactions: same id, description,
amount, type, category and date string. -/
def sameData (t u : Transaction) : Prop :=
  t.id = u.id ∧ t.description = u.description ∧ t.amount = u.amount ∧
  t.type = u.type ∧ t.category = u.category ∧ t.date = u.date

/-- A sample expense transaction used by the concrete witnesses. -/
def sampleExpense : Transaction :=
  { id := 1, description := "coffee", amount := 50, type := "EXPENSE",
    category := some "Food", date := some 0 }

/-- A sample income transaction used by the concrete witnesses. -/
def sampleIncome : Transaction :=
  { id := 2, description := "salary", amount := 100, type := "INCOME",
    category := none, date := some 0 }

/-- An uncategorized expense transaction used by the concrete witnesses. -/
def sampleNoCat : Transaction :=
  { id := 3, description := "misc", amount := 20, type := "EXPENSE",
    category := none, date := some 0 }

/-- A large expense transaction, first of `sixTxs`, used by the claim 4
witness. -/
def bigTx : Transaction :=
  { id := 10, description := "tv", amount := 100, type := "EXPENSE",
    category := some "Shopping", date := some 0 }

/-- Six expense transactions (100, 10, 10, 10, 10, 10) activating the
outlier detector, used by the claim 4 witness. -/
def sixTxs : List Transaction :=
  bigTx ::
    (List.range 5).map (fun i =>
      { id := (11 + i : Int), description := "snack", amount := 10,
        type := "EXPENSE", category := some "Food", date := some 0 })

theorem insertBy_perm (le : α → α → Bool) (x : α) :
    ∀ l : List α, (insertBy le x l).Perm (x :: l) := by
  intro l
  induction l with
  | nil => simp [insertBy]
  | cons y ys ih =>
    by_cases h : le x y
    · simp [insertBy, h]
    · simp only [insertBy, h, Bool.false_eq_true, if_false]
      exact (ih.cons y).trans (List.Perm.swap x y ys)

theorem sortBy_perm (le : α → α → Bool) :
    ∀ l : List α, (sortBy le l).Perm l := by
  intro l
  induction l with
  | nil => simp [sortBy]
  | cons x xs ih =>
    exact (insertBy_perm le x (sortBy le xs)).trans (ih.cons x)

theorem mem_sortBy {le : α → α → Bool} {l : List α} {a : α} :
    a ∈ sortBy le l ↔ a ∈ l := (sortBy_perm le l).mem_iff

theorem pairwise_insertBy {R : α → α → Prop} (le : α → α → Bool) (x : α) :
    ∀ l : List α, l.Pairwise R →
      (∀ z ∈ l, le x z = true → R x z) →
      (∀ z ∈ l, le x z = false → R z x) →
      (∀ y ∈ l, ∀ z ∈ l, le x y = true → R y z → R x z) →
      (insertBy le x l).Pairwise R := by
  intro l
  induction l with
  | nil => intro _ _ _ _; simp [insertBy]
  | cons y ys ih =>
    intro hpw hxz hzx htr
    rcases List.pairwise_cons.mp hpw with ⟨hyz, hys⟩
    by_cases h : le x y
    · simp only [insertBy, h, if_true]
      refine List.pairwise_cons.mpr ⟨?_, hpw⟩
      intro z hz
      rcases List.mem_cons.mp hz with rfl | hz
      · exact hxz z (by simp) h
      · exact htr y (by simp) z (by simp [hz]) h (hyz z hz)
    · simp only [insertBy, h, Bool.false_eq_true, if_false]
      refine List.pairwise_cons.mpr ⟨?_, ?_⟩
      · intro z hz
        rcases List.mem_cons.mp ((insertBy_perm le x ys).mem_iff.mp hz) with h1 | hz
        · subst h1
          exact hzx y (by simp) (by simpa using h)
        · exact hyz z hz
      · exact ih hys (fun z hz => hxz z (by simp [hz]))
          (fun z hz => hzx z (by simp [hz]))
          (fun a ha b hb => htr a (by simp [ha]) b (by simp [hb]))

/-- Sorting with a `le` test that decides a transitive total relation yields a
pairwise `R`-ordered list. -/
theorem pairwise_sortBy_of_total {R : α → α → Prop} (le : α → α → Bool)
    (hle : ∀ a b, le a b = true → R a b)
    (hnle : ∀ a b, le a b = false → R b a)
    (htr : ∀ a b c, R a b → R b c → R a c) :
    ∀ l : List α, (sortBy le l).Pairwise R := by
  intro l
  induction l with
  | nil => simp [sortBy]
  | cons x xs ih =>
    exact pairwise_insertBy le x (sortBy le xs) ih
      (fun z _ h => hle x z h)
      (fun z _ h => hnle x z h)
      (fun a _ b _ h hab => htr x a b (hle x a h) hab)

theorem meanQ_nil : meanQ [] = 0 := by
  simp [meanQ]

theorem meanQ_of_guard (l : List ℚ) : (if 0 < l.length then meanQ l else 0) = meanQ l := by
  cases l with
  | nil => simp [meanQ]
  | cons a l => simp

/-- Claim C1 (amended): for every non-empty transaction list and every
horizon, `calculate_forecast` returns one `ForecastPoint` per requested
month and the i-th month label is derived by adding `30 * (i + 1)` days to
the `now` anchor.  (The original claim additionally asserted that the labels
are strictly increasing, contiguous, and start at the month immediately
after `now`; `claim1_counterexample` refutes that part.) -/
theorem claim1_month_rule (sq : ℚ → ℚ) (now : Nat) (txs : List Transaction)
    (months : Nat) (h : txs ≠ []) :
    (calculate_forecast sq now txs months).forecasts.map (fun f => f.month)
      = (List.range months).map (fun i => ymOfDay (now + 30 * (i + 1))) := by
  simp only [calculate_forecast]
  rw [if_neg h]
  by_cases h2 : (seriesOf (expensesOf now txs)).length < 2
  · rw [if_pos h2, List.map_map]
    rfl
  · rw [if_neg h2, List.map_map]
    rfl

/-- Claim C1, counterexample to the original statement: with the `now`
anchor at day 0 (1970-01-01) and a single-transaction history, the two
requested month labels are 1970-01 and 1970-03 (encoded as
`year * 12 + (month - 1)`): the first label equals the month of `now`
itself (not the month immediately after), and the labels skip 1970-02, so
they are neither contiguous nor anchored at the month after `now`. -/
theorem claim1_counterexample :
    (calculate_forecast (fun q => q) 0 [sampleExpense] 2).forecasts.map
        (fun f => f.month) = [23640, 23642]
      ∧ ymOfDay 0 = 23640 := by
  constructor
  · with_unfolding_all decide
  · decide

theorem claim1_month_rule_wit :
    (calculate_forecast (fun q => q) 1 [sampleIncome] 2).forecasts.map
        (fun f => f.month) = [23641, 23642] := by
  rw [claim1_month_rule (fun q => q) 1 [sampleIncome] 2 (by decide)]
  decide

/-- Claim C2, counterexample to the original statement: the claim includes
the empty transaction list, but for the empty list `calculate_forecast`
returns zero forecast points rather than the requested one. -/
theorem claim2_counterexample :
    (calculate_forecast (fun q => q) 0 [] 1).forecasts = [] := by
  decide

/-- Claim C2 (amended): for every NON-empty transaction list with fewer than
2 distinct expense months and every horizon, `calculate_forecast` returns
exactly one point per requested month, each with predicted spending and
income equal to the historical monthly averages (`meanQ [] = 0` when there
is no history of that kind), confidence bounds `0.8` and `1.2` times the
predicted spending, trend "stable" and the static encouragement advice.
(The original claim also covered the empty list, refuted by
`claim2_counterexample`.) -/
theorem claim2_insufficient_history (sq : ℚ → ℚ) (now : Nat)
    (txs : List Transaction) (months : Nat) (h : txs ≠ [])
    (h2 : (seriesOf (expensesOf now txs)).length < 2) :
    (calculate_forecast sq now txs months).forecasts
        = (List.range months).map (fun i =>
            { month := ymOfDay (now + 30 * (i + 1)),
              predicted_spending := meanQ (seriesOf (expensesOf now txs)),
              predicted_income := meanQ (seriesOf (incomesOf now txs)),
              predicted_savings := meanQ (seriesOf (incomesOf now txs))
                - meanQ (seriesOf (expensesOf now txs)),
              confidence_lower := meanQ (seriesOf (expensesOf now txs)) * (8/10),
              confidence_upper := meanQ (seriesOf (expensesOf now txs)) * (12/10) })
      ∧ (calculate_forecast sq now txs months).forecasts.length = months
      ∧ (calculate_forecast sq now txs months).spending_trend = "stable"
      ∧ (calculate_forecast sq now txs months).advice = Advice.keepTracking := by
  simp only [calculate_forecast]
  rw [if_neg h, if_pos h2]
  simp only [meanQ_of_guard]
  refine ⟨?_, ?_, ?_, ?_⟩ <;> first
  | rfl
  | trivial
  | simp

theorem claim2_insufficient_history_wit :
    (calculate_forecast (fun q => q) 0 [sampleExpense, sampleIncome] 1).forecasts
        = [{ month := 23640, predicted_spending := 50, predicted_income := 100,
             predicted_savings := 50, confidence_lower := 40, confidence_upper := 60 }]
      ∧ (calculate_forecast (fun q => q) 0 [sampleExpense, sampleIncome] 1).spending_trend
          = "stable"
      ∧ (calculate_forecast (fun q => q) 0 [sampleExpense, sampleIncome] 1).advice
          = Advice.keepTracking := by
  have h := claim2_insufficient_history (fun q => q) 0 [sampleExpense, sampleIncome] 1
    (by decide) (by decide)
  refine ⟨?_, h.2.2.1, h.2.2.2⟩
  rw [h.1, show List.range 1 = [0] from rfl]
  simp only [List.map_cons, List.map_nil, List.cons.injEq,
    MonthlyForecast.mk.injEq, and_true]
  refine ⟨?_, ?_, ?_, ?_, ?_, ?_⟩ <;> with_unfolding_all decide

theorem pyRound_nonneg {q : ℚ} (h : 0 ≤ q) : 0 ≤ pyRound q := by
  have hf : (0:ℤ) ≤ ⌊q⌋ := Int.floor_nonneg.mpr h
  simp only [pyRound]
  split
  · exact hf
  · split
    · omega
    · split <;> omega

theorem round2_nonneg {q : ℚ} (h : 0 ≤ q) : 0 ≤ round2 q := by
  unfold round2
  have h1 : (0:ℤ) ≤ pyRound (q * 100) := pyRound_nonneg (by positivity)
  have h2 : (0:ℚ) ≤ (pyRound (q * 100) : ℚ) := by exact_mod_cast h1
  positivity

theorem seriesOf_nonneg {l : List Row} (h : ∀ r ∈ l, 0 ≤ r.amount) :
    ∀ q ∈ seriesOf l, 0 ≤ q := by
  intro q hq
  rcases List.mem_map.mp hq with ⟨m, _, rfl⟩
  apply List.sum_nonneg
  intro x hx
  rcases List.mem_map.mp hx with ⟨r, hr, rfl⟩
  exact h r (List.mem_filter.mp hr).1

theorem meanQ_nonneg {l : List ℚ} (h : ∀ q ∈ l, 0 ≤ q) : 0 ≤ meanQ l := by
  unfold meanQ
  have := List.sum_nonneg h
  positivity

/-- Claim C5: for every transaction list with non-negative amounts and every
horizon, every forecast point has non-negative predicted spending and a
non-negative confidence lower bound (negative regression projections and
negative lower bounds are clamped to zero, and the insufficient-history
average of non-negative monthly sums is non-negative). -/
theorem claim5_nonneg (sq : ℚ → ℚ) (now : Nat) (txs : List Transaction)
    (months : Nat) (h : ∀ t ∈ txs, 0 ≤ t.amount) :
    ∀ f ∈ (calculate_forecast sq now txs months).forecasts,
      0 ≤ f.predicted_spending ∧ 0 ≤ f.confidence_lower := by
  have hrows : ∀ r ∈ expensesOf now txs, 0 ≤ r.amount := by
    intro r hr
    rcases List.mem_map.mp (List.mem_filter.mp hr).1 with ⟨t, ht, rfl⟩
    exact h t ht
  have hmean : 0 ≤ meanQ (seriesOf (expensesOf now txs)) :=
    meanQ_nonneg (seriesOf_nonneg hrows)
  by_cases h0 : txs = []
  · subst h0
    intro f hf
    simp [calculate_forecast] at hf
  · simp only [calculate_forecast]
    rw [if_neg h0]
    by_cases h2 : (seriesOf (expensesOf now txs)).length < 2
    · rw [if_pos h2]
      intro f hf
      rcases List.mem_map.mp hf with ⟨i, _, rfl⟩
      refine ⟨?_, ?_⟩
      · simpa only [meanQ_of_guard] using hmean
      · simp only [meanQ_of_guard]
        have : (0:ℚ) ≤ 8/10 := by norm_num
        exact mul_nonneg hmean this
    · rw [if_neg h2]
      intro f hf
      rcases List.mem_map.mp hf with ⟨i, _, rfl⟩
      exact ⟨round2_nonneg (le_max_left 0 _), round2_nonneg (le_max_left 0 _)⟩

theorem claim5_nonneg_wit :
    0 ≤ ({ month := 23640, predicted_spending := 50, predicted_income := 0,
           predicted_savings := -50, confidence_lower := 40,
           confidence_upper := 60 } : MonthlyForecast).predicted_spending
      ∧ 0 ≤ ({ month := 23640, predicted_spending := 50, predicted_income := 0,
               predicted_savings := -50, confidence_lower := 40,
               confidence_upper := 60 } : MonthlyForecast).confidence_lower :=
  claim5_nonneg (fun q => q) 0 [sampleExpense] 1 (by decide) _
    (by with_unfolding_all (exact List.mem_singleton_self _))

theorem sameData_eq {t u : Transaction} (h : sameData t u) : t = u := by
  cases t
  cases u
  simp only [sameData] at h
  obtain ⟨h1, h2, h3, h4, h5, h6⟩ := h
  simp_all

theorem forall2_sameData_eq {l l' : List Transaction}
    (h : List.Forall₂ sameData l l') : l = l' := by
  induction h with
  | nil => rfl
  | cons h1 _ ih => rw [sameData_eq h1, ih]

/-- Claim C9: with the `now` anchor fixed, `analyze_transactions` and
`calculate_forecast` are pure functions of the transaction field data: two
runs on field-wise equal transaction lists produce identical outputs (there
is no hidden state beyond the `now` anchor, which also covers the
unparseable-timestamp fallback, and the square root routine `sq` for the
forecast). -/
theorem claim9_deterministic (sq : ℚ → ℚ) (now : Nat) (months : Nat)
    (txs txs' : List Transaction) (h : List.Forall₂ sameData txs txs') :
    analyze_transactions now txs = analyze_transactions now txs'
      ∧ calculate_forecast sq now txs months = calculate_forecast sq now txs' months := by
  rw [forall2_sameData_eq h]
  exact ⟨rfl, rfl⟩

theorem claim9_deterministic_wit :
    analyze_transactions 0 [sampleExpense] = analyze_transactions 0 [sampleExpense]
      ∧ calculate_forecast (fun q => q) 0 [sampleExpense] 6
          = calculate_forecast (fun q => q) 0 [sampleExpense] 6 :=
  claim9_deterministic (fun q => q) 0 6 [sampleExpense] [sampleExpense]
    (List.Forall₂.cons ⟨rfl, rfl, rfl, rfl, rfl, rfl⟩ List.Forall₂.nil)

theorem dedup_const [DecidableEq α] :
    ∀ {l : List α} {a : α}, l ≠ [] → (∀ x ∈ l, x = a) → l.dedup = [a] := by
  intro l
  induction l with
  | nil => intro a hne _; cases hne rfl
  | cons x xs ih =>
    intro a _ h
    have hx : x = a := h x (by simp)
    subst hx
    cases xs with
    | nil => simp
    | cons y ys =>
      have hy : y = x := (h y (by simp)).trans rfl
      have hmem : x ∈ y :: ys := by rw [hy]; simp
      rw [List.dedup_cons_of_mem hmem]
      exact ih (by simp) (fun z hz => h z (by simp [hz]))

/-- Claim C10: the category-detail operation matches on the raw optional
category field with no "Uncategorized" substitution: when every transaction
in the list has an absent category, requesting the label "Uncategorized"
signals not-found, even though `analyze_transactions` buckets those same
transactions (when any expense exists) under the single breakdown category
"Uncategorized". -/
theorem claim10_raw_category_match (now : Nat) (txs : List Transaction)
    (h : ∀ t ∈ txs, t.category = none) :
    detailIsError (analyze_category now "Uncategorized" txs) = true
      ∧ (expensesOf now txs ≠ [] →
          (analyze_transactions now txs).category_breakdown.map
            (fun c => c.category) = ["Uncategorized"]) := by
  have hfil : txs.filter (fun t => t.category == some "Uncategorized") = [] := by
    rw [List.filter_eq_nil_iff]
    intro t ht
    simp [h t ht]
  constructor
  · simp only [analyze_category, hfil]
    rfl
  · intro hne
    have h0 : txs ≠ [] := by
      intro h0
      subst h0
      exact hne rfl
    have hcat : ∀ x ∈ (expensesOf now txs).map (fun r => r.category),
        x = "Uncategorized" := by
      intro x hx
      rcases List.mem_map.mp hx with ⟨r, hr, rfl⟩
      rcases List.mem_map.mp (List.mem_filter.mp hr).1 with ⟨t, ht, rfl⟩
      simp [toRow, resolveCategory, h t ht]
    have hmapne : (expensesOf now txs).map (fun r => r.category) ≠ [] := by
      simpa using hne
    have hk : catKeys (expensesOf now txs) = ["Uncategorized"] := by
      unfold catKeys
      rw [dedup_const hmapne hcat]
      rfl
    simp only [analyze_transactions]
    rw [if_neg h0]
    simp only [mkBreakdown, hk]
    rfl

theorem claim10_raw_category_match_wit :
    detailIsError (analyze_category 0 "Uncategorized" [sampleNoCat]) = true
      ∧ (analyze_transactions 0 [sampleNoCat]).category_breakdown.map
          (fun c => c.category) = ["Uncategorized"] := by
  have h := claim10_raw_category_match 0 [sampleNoCat] (by decide)
  exact ⟨h.1, h.2 (by decide)⟩

theorem sortBy_breakdown_pairwise :
    ∀ rows : List CategoryBreakdown,
      rows.Pairwise (fun a b => a.category < b.category) →
      (sortBy (fun a b => decide (b.total_spent ≤ a.total_spent)) rows).Pairwise
        (fun a b => b.total_spent < a.total_spent
          ∨ (b.total_spent = a.total_spent ∧ a.category < b.category)) := by
  intro rows
  induction rows with
  | nil => intro _; simp [sortBy]
  | cons x xs ih =>
    intro hpw
    rcases List.pairwise_cons.mp hpw with ⟨hx, hxs⟩
    refine pairwise_insertBy _ x (sortBy _ xs) (ih hxs) ?_ ?_ ?_
    · intro z hz hle
      have hzx : z ∈ xs := mem_sortBy.mp hz
      rcases lt_or_eq_of_le (of_decide_eq_true hle) with h1 | h1
      · exact Or.inl h1
      · exact Or.inr ⟨h1, hx z hzx⟩
    · intro z hz hle
      exact Or.inl (lt_of_not_le (of_decide_eq_false hle))
    · intro y hy z hz hle hRyz
      have hzx : z ∈ xs := mem_sortBy.mp hz
      have hle2 : y.total_spent ≤ x.total_spent := of_decide_eq_true hle
      rcases hRyz with h1 | ⟨h1, _⟩
      · exact Or.inl (lt_of_lt_of_le h1 hle2)
      · rcases lt_or_eq_of_le hle2 with h3 | h3
        · refine Or.inl ?_
          rw [h1]
          exact h3
        · exact Or.inr ⟨h1.trans h3, hx z hzx⟩

/-- Claim C6 (amended): the category breakdown is sorted in descending order
of (rounded) total_spent, and entries with equal totals appear in ascending
lexicographic order of the category label.  (pandas `groupby` sorts the
group keys alphabetically before the stable descending sort, so ties come
out in label order, not in the first-seen order asserted by the original
claim; `claim6_counterexample` refutes the first-seen tie order.) -/
theorem claim6_sorted (now : Nat) (txs : List Transaction) :
    (analyze_transactions now txs).category_breakdown.Pairwise
      (fun a b => b.total_spent < a.total_spent
        ∨ (b.total_spent = a.total_spent ∧ a.category < b.category)) := by
  by_cases h0 : txs = []
  · subst h0
    simp [analyze_transactions]
  · simp only [analyze_transactions]
    rw [if_neg h0]
    show (mkBreakdown (expensesOf now txs)).Pairwise _
    unfold mkBreakdown
    apply sortBy_breakdown_pairwise
    rw [List.pairwise_map]
    have h1 : (catKeys (expensesOf now txs)).Pairwise (· ≤ ·) :=
      @pairwise_sortBy_of_total String (· ≤ ·) _
        (fun a b h => of_decide_eq_true h)
        (fun a b h => le_of_not_le (of_decide_eq_false h))
        (fun a b c hab hbc => le_trans hab hbc) _
    have h2 : (catKeys (expensesOf now txs)).Nodup :=
      ((sortBy_perm _ _).symm.nodup_iff).mp (List.nodup_dedup _)
    exact (h1.and h2).imp (fun h => lt_of_le_of_ne h.1 h.2)

/-- Claim C6, counterexample to the original tie-breaking: two expense
transactions with equal totals, category "b" first seen before category "a":
the breakdown lists "a" before "b" (ascending label order inherited from the
sorted groupby keys), not the claimed first-seen order "b" then "a". -/
theorem claim6_counterexample :
    (analyze_transactions 0
      [{ id := 1, description := "b1", amount := 10, type := "EXPENSE",
         category := some "b", date := some 0 },
       { id := 2, description := "a1", amount := 10, type := "EXPENSE",
         category := some "a", date := some 0 }]).category_breakdown.map
        (fun c => (c.category, c.total_spent))
      = [("a", 10), ("b", 10)] := by
  with_unfolding_all decide

theorem filter_savings_mkInsights (b : List CategoryBreakdown)
    (m : List MonthlyBreakdown) (u : List UnusualTransaction) (inc net : ℚ) :
    (mkInsights b m u inc net).filter isSavingsInsight = savingsInsights inc net := by
  unfold mkInsights
  rw [List.filter_append, List.filter_append, List.filter_append]
  have h1 : (match b with
      | [] => ([] : List Insight)
      | top :: _ => [Insight.topCategory top.category
          (round1 top.percentage_of_total)]).filter isSavingsInsight = [] := by
    cases b <;> simp [isSavingsInsight]
  have h2 : (monthCompareInsights m).filter isSavingsInsight = [] := by
    unfold monthCompareInsights
    generalize m.reverse = mr
    rcases mr with _ | ⟨r, _ | ⟨p, rest⟩⟩
    · simp
    · simp
    · show (if p.total_spending * (12/10) < r.total_spending
          then [Insight.spendingIncreased]
          else if r.total_spending < p.total_spending * (8/10)
          then [Insight.spendingDecreased]
          else []).filter isSavingsInsight = []
      split
      · simp [isSavingsInsight]
      · split
        · simp [isSavingsInsight]
        · simp
  have h3 : (match u with
      | [] => ([] : List Insight)
      | _ => [Insight.unusualCount u.length]).filter isSavingsInsight = [] := by
    cases u <;> simp [isSavingsInsight]
  have h4 : (savingsInsights inc net).filter isSavingsInsight
      = savingsInsights inc net := by
    unfold savingsInsights
    split
    · split
      · simp [isSavingsInsight]
      · split <;> simp [isSavingsInsight]
    · simp
  rw [h1, h2, h3, h4]
  simp

/-- Claim C8 (amended): whenever total income is positive,
`analyze_transactions` emits exactly one savings-rate insight, selected by
rate = net / income * 100: the overspending warning when rate < 0 (its
message template interpolates no numeric rate), the "aim for 20%" message
carrying the rate to one decimal when 0 <= rate < 20, and the positive
reinforcement message carrying the rate to one decimal when rate >= 20;
when total income is not positive, no savings-rate insight is emitted.
(The original claim asserted that the overspending warning also carries the
numeric rate; `claim8_counterexample` refutes that.) -/
theorem claim8_savings_insight (now : Nat) (txs : List Transaction) :
    (analyze_transactions now txs).insights.filter isSavingsInsight
      = (if 0 < sumAmounts (incomesOf now txs) then
          [if (sumAmounts (incomesOf now txs) - sumAmounts (expensesOf now txs))
              / sumAmounts (incomesOf now txs) * 100 < 0 then
            Insight.overspending
          else if (sumAmounts (incomesOf now txs) - sumAmounts (expensesOf now txs))
              / sumAmounts (incomesOf now txs) * 100 < 20 then
            Insight.savingsLow (round1 ((sumAmounts (incomesOf now txs)
              - sumAmounts (expensesOf now txs)) / sumAmounts (incomesOf now txs) * 100))
          else Insight.savingsGood (round1 ((sumAmounts (incomesOf now txs)
              - sumAmounts (expensesOf now txs)) / sumAmounts (incomesOf now txs) * 100))]
        else [])
      ∧ insightRate Insight.overspending = none
      ∧ (∀ r : ℚ, insightRate (Insight.savingsLow r) = some r
          ∧ insightRate (Insight.savingsGood r) = some r) := by
  refine ⟨?_, rfl, fun r => ⟨rfl, rfl⟩⟩
  by_cases h0 : txs = []
  · subst h0
    have hz : sumAmounts (incomesOf now ([] : List Transaction)) = 0 := rfl
    rw [hz]
    simp [analyze_transactions, isSavingsInsight]
  · simp only [analyze_transactions]
    rw [if_neg h0]
    show (mkInsights _ _ _ _ _).filter isSavingsInsight = _
    rw [filter_savings_mkInsights]
    unfold savingsInsights
    by_cases hc : 0 < sumAmounts (incomesOf now txs)
    · rw [if_pos hc, if_pos hc]
      by_cases h1 : (sumAmounts (incomesOf now txs) - sumAmounts (expensesOf now txs))
          / sumAmounts (incomesOf now txs) * 100 < 0
      · simp [h1]
      · by_cases h2 : (sumAmounts (incomesOf now txs) - sumAmounts (expensesOf now txs))
            / sumAmounts (incomesOf now txs) * 100 < 20
        · simp [h1, h2]
        · simp [h1, h2]
    · rw [if_neg hc, if_neg hc]

/-- Claim C8, counterexample to the original statement: with income 100 and
expense 200 the savings rate is -100, and the emitted savings insight is the
overspending warning, whose message template carries no numeric rate
(`insightRate` is `none`), while the claim asserts every savings-rate
message carries the rate to one decimal. -/
theorem claim8_counterexample :
    (analyze_transactions 0
      [{ id := 1, description := "pay", amount := 100, type := "INCOME",
         category := none, date := some 0 },
       { id := 2, description := "stuff", amount := 200, type := "EXPENSE",
         category := none, date := some 0 }]).insights.filter isSavingsInsight
        = [Insight.overspending]
      ∧ insightRate Insight.overspending = none := by
  constructor
  · with_unfolding_all decide
  · rfl

theorem abs_pyRound_sub (q : ℚ) : |(pyRound q : ℚ) - q| ≤ 1/2 := by
  have h1 : ((⌊q⌋ : ℤ) : ℚ) ≤ q := Int.floor_le q
  have h2 : q < ((⌊q⌋ : ℤ) : ℚ) + 1 := Int.lt_floor_add_one q
  simp only [pyRound]
  split
  · rename_i h
    rw [abs_le]
    constructor <;> push_cast <;> linarith
  · rename_i h
    split
    · rename_i h3
      rw [abs_le]
      constructor <;> push_cast <;> linarith
    · rename_i h3
      have h4 : q - ((⌊q⌋ : ℤ) : ℚ) = 1/2 := le_antisymm (not_lt.mp h3) (not_lt.mp h)
      split <;> rw [abs_le] <;> constructor <;> push_cast <;> linarith

theorem abs_round2_sub (q : ℚ) : |round2 q - q| ≤ 1/200 := by
  unfold round2
  have h := abs_pyRound_sub (q * 100)
  have heq : (pyRound (q * 100) : ℚ) / 100 - q = ((pyRound (q * 100) : ℚ) - q * 100) / 100 := by
    ring
  rw [heq, abs_div, abs_of_pos (show (0:ℚ) < 100 by norm_num)]
  rw [div_le_div_iff (by norm_num) (by norm_num)]
  linarith [h]

theorem abs_sum_round2_sub :
    ∀ l : List ℚ, |(l.map round2).sum - l.sum| ≤ (l.length : ℚ) / 200 := by
  intro l
  induction l with
  | nil => simp
  | cons a l ih =>
    simp only [List.map_cons, List.sum_cons, List.length_cons]
    have h := abs_round2_sub a
    calc |round2 a + (l.map round2).sum - (a + l.sum)|
        = |(round2 a - a) + ((l.map round2).sum - l.sum)| := by
          rw [show round2 a + (l.map round2).sum - (a + l.sum)
            = (round2 a - a) + ((l.map round2).sum - l.sum) by ring]
      _ ≤ |round2 a - a| + |(l.map round2).sum - l.sum| := abs_add _ _
      _ ≤ 1/200 + (l.length : ℚ)/200 := add_le_add h ih
      _ = ((l.length + 1 : ℕ) : ℚ)/200 := by push_cast; ring

theorem round2_zero : round2 0 = 0 := by
  with_unfolding_all rfl

theorem sum_pct_raw (es : List Row) (hT : groupTotals es ≠ 0) :
    ((catKeys es).map (fun c => catTotal es c / groupTotals es * 100)).sum = 100 := by
  have h1 : (fun c => catTotal es c / groupTotals es * 100)
      = (fun c => catTotal es c * (100 / groupTotals es)) := by
    funext c
    ring
  rw [h1, List.sum_map_mul_right]
  show groupTotals es * (100 / groupTotals es) = 100
  field_simp

theorem sortBy_map_sum {α β : Type} [AddCommMonoid β] (le : α → α → Bool)
    (f : α → β) (l : List α) :
    ((sortBy le l).map f).sum = (l.map f).sum :=
  ((sortBy_perm le l).map f).sum_eq

theorem sum_map_zero_str : ∀ l : List String, (l.map (fun _ => (0:ℚ))).sum = 0 := by
  intro l
  induction l with
  | nil => simp
  | cons a l ih => simp [ih]

theorem claim3_main (es : List Row) :
    |((mkBreakdown es).map (fun c => c.percentage_of_total)).sum
        - (if 0 < groupTotals es then (100:ℚ) else 0)|
      ≤ ((mkBreakdown es).length : ℚ) / 200 := by
  unfold mkBreakdown
  rw [sortBy_map_sum, List.map_map, (sortBy_perm _ _).length_eq, List.length_map]
  show |((catKeys es).map (fun c =>
      round2 (if 0 < groupTotals es then catTotal es c / groupTotals es * 100 else 0))).sum
    - (if 0 < groupTotals es then (100:ℚ) else 0)|
    ≤ ((catKeys es).length : ℚ) / 200
  by_cases hT : 0 < groupTotals es
  · rw [if_pos hT]
    simp only [if_pos hT]
    have hraw := sum_pct_raw es (ne_of_gt hT)
    have hb : |((catKeys es).map
          (fun c => round2 (catTotal es c / groupTotals es * 100))).sum
        - ((catKeys es).map (fun c => catTotal es c / groupTotals es * 100)).sum|
        ≤ ((catKeys es).length : ℚ) / 200 := by
      have hb0 := abs_sum_round2_sub ((catKeys es).map
        (fun c => catTotal es c / groupTotals es * 100))
      rw [List.map_map, List.length_map] at hb0
      exact hb0
    rw [show ((catKeys es).map
          (fun c => round2 (catTotal es c / groupTotals es * 100))).sum - (100:ℚ)
        = ((catKeys es).map
            (fun c => round2 (catTotal es c / groupTotals es * 100))).sum
          - ((catKeys es).map
              (fun c => catTotal es c / groupTotals es * 100)).sum from by rw [hraw]]
    exact hb
  · rw [if_neg hT]
    simp only [if_neg hT, round2_zero]
    rw [sum_map_zero_str]
    simp
    positivity

/-- Claim C3 (amended): the percentages of the category breakdown sum to 100
up to the per-entry rounding to two decimals (each entry is off by at most
0.005, so the reported sum is within `n / 200` of 100 for `n` categories)
whenever the total expense is positive; when the total expense is zero the
division is guarded and every percentage is 0, so the sum is 0, not 100
(refuting the unconditional sum-to-100 part of the original claim,
`claim3_counterexample`). -/
theorem claim3_percentage_sum (now : Nat) (txs : List Transaction) :
    |((analyze_transactions now txs).category_breakdown.map
        (fun c => c.percentage_of_total)).sum
      - (if 0 < groupTotals (expensesOf now txs) then (100:ℚ) else 0)|
      ≤ ((analyze_transactions now txs).category_breakdown.length : ℚ) / 200 := by
  by_cases h0 : txs = []
  · subst h0
    have hT : ¬ (0 : ℚ) < groupTotals (expensesOf now ([] : List Transaction)) := by
      intro h
      have hz : groupTotals (expensesOf now ([] : List Transaction)) = 0 := rfl
      rw [hz] at h
      exact lt_irrefl 0 h
    rw [if_neg hT]
    simp [analyze_transactions]
  · simp only [analyze_transactions]
    rw [if_neg h0]
    exact claim3_main (expensesOf now txs)

/-- Claim C3, counterexample to the original statement: a single expense
transaction of amount 0 produces a non-empty category breakdown whose only
percentage is 0 (the zero-total guard), so the percentages sum to 0, not to
100. -/
theorem claim3_counterexample :
    (analyze_transactions 0
      [{ id := 1, description := "z", amount := 0, type := "EXPENSE",
         category := some "Food", date := some 0 }]).category_breakdown.map
        (fun c => c.percentage_of_total) = [0]
      ∧ ((0:ℚ) ≠ 100) := by
  constructor
  · with_unfolding_all decide
  · norm_num

theorem exVar_nonneg {es : List Row} (h : 2 ≤ es.length) : 0 ≤ exVar es := by
  unfold exVar
  apply div_nonneg
  · apply List.sum_nonneg
    intro x hx
    rcases List.mem_map.mp hx with ⟨r, _, rfl⟩
    positivity
  · have h2 : (2:ℚ) ≤ (es.length : ℚ) := by exact_mod_cast h
    linarith

theorem outlierCond_iff_real (es : List Row) (r : Row) (hv : 0 ≤ exVar es) :
    outlierCond es r
      ↔ ((r.amount : ℝ) > ((exMean es : ℚ) : ℝ)
          + 2 * Real.sqrt ((exVar es : ℚ) : ℝ)) := by
  have hv2 : (0:ℝ) ≤ ((exVar es : ℚ) : ℝ) := by exact_mod_cast hv
  have hs : (0:ℝ) ≤ Real.sqrt ((exVar es : ℚ) : ℝ) := Real.sqrt_nonneg _
  have hs2 : Real.sqrt ((exVar es : ℚ) : ℝ) ^ 2 = ((exVar es : ℚ) : ℝ) :=
    Real.sq_sqrt hv2
  unfold outlierCond
  constructor
  · rintro ⟨h1, h2⟩
    have h1r : ((exMean es : ℚ) : ℝ) < (r.amount : ℝ) := by exact_mod_cast h1
    have h2r : 4 * ((exVar es : ℚ) : ℝ)
        < ((r.amount : ℝ) - ((exMean es : ℚ) : ℝ)) ^ 2 := by exact_mod_cast h2
    nlinarith [h1r, h2r, hs, hs2,
      sq_nonneg ((r.amount : ℝ) - ((exMean es : ℚ) : ℝ)
        + 2 * Real.sqrt ((exVar es : ℚ) : ℝ))]
  · intro h1
    have hgt : ((exMean es : ℚ) : ℝ) < (r.amount : ℝ) := by nlinarith [hs]
    constructor
    · exact_mod_cast hgt
    · have h2r : 4 * ((exVar es : ℚ) : ℝ)
          < ((r.amount : ℝ) - ((exMean es : ℚ) : ℝ)) ^ 2 := by nlinarith [hs, hs2]
      exact_mod_cast h2r

/-- Claim C4: with at most 5 expense transactions the unusual-transactions
list is empty regardless of amounts; with more than 5, the reported entries
are exactly the expense rows whose amount strictly exceeds
mean + 2 * (sample standard deviation of the expense amounts), each carrying
the rounded amount and the ratio amount / mean rounded to one decimal
(`mkUnusualEntry`).  The rational test `outlierCond` used by the embedding
is proved equivalent to the real-number threshold with `Real.sqrt`. -/
theorem claim4_outliers (now : Nat) (txs : List Transaction) :
    ((analyze_transactions now txs).unusual_transactions
        = if 5 < (expensesOf now txs).length then
            ((expensesOf now txs).filter
              (fun r => decide (outlierCond (expensesOf now txs) r))).map
              (mkUnusualEntry (expensesOf now txs))
          else [])
      ∧ (5 < (expensesOf now txs).length →
          ∀ r ∈ expensesOf now txs,
            (outlierCond (expensesOf now txs) r
              ↔ ((r.amount : ℝ) > ((exMean (expensesOf now txs) : ℚ) : ℝ)
                  + 2 * Real.sqrt ((exVar (expensesOf now txs) : ℚ) : ℝ)))) := by
  constructor
  · by_cases h0 : txs = []
    · subst h0
      simp [analyze_transactions, expensesOf, rowsOf]
    · simp only [analyze_transactions]
      rw [if_neg h0]
      rfl
  · intro hlen r hr
    exact outlierCond_iff_real (expensesOf now txs) r (exVar_nonneg (by omega))

theorem claim4_outliers_wit :
    outlierCond (expensesOf 0 sixTxs) (toRow 0 bigTx)
      ↔ (((toRow 0 bigTx).amount : ℝ)
          > ((exMean (expensesOf 0 sixTxs) : ℚ) : ℝ)
            + 2 * Real.sqrt ((exVar (expensesOf 0 sixTxs) : ℚ) : ℝ)) :=
  (claim4_outliers 0 sixTxs).2 (by decide) (toRow 0 bigTx)
    (by with_unfolding_all (exact List.mem_cons_self _ _))

/-- Claim C7 (code bug): the claim and the spec (section 7) make the
not-found condition the only user-visible error of the analytics core, with
no exception allowed past the pipeline boundary, and section 4.1 admits
date strings both with and without a trailing "Z"; but on a request whose
matching transactions parse to one timezone-aware and one naive datetime,
the category-detail operation fails with a pandas `TypeError` (object dtype
date column) even though transactions match, an error distinct from the
not-found signal.  The code, not the claim, is at fault. -/
theorem claim7_tz_error :
    analyze_category_tz 0 "Food" mixedTxs
        = Except.error "TypeError: nlargest on object dtype date column"
      ∧ mixedTxs.filter (fun t => t.category == some "Food") ≠ []
      ∧ ("TypeError: nlargest on object dtype date column"
          ≠ "No transactions found for category: " ++ "Food") := by
  refine ⟨?_, ?_, ?_⟩
  · rfl
  · decide
  · decide
